import Mathlib

/-!
Shallow embedding of the Knocki client library (`src/knocki/knocki.py`,
`src/knocki/models.py`, `src/knocki/exceptions.py`): the event codec, the
listener registry, the WebSocket receive loop, the reconnection supervisor,
and the state effects of `login`, `_request` and `close`.

Python exceptions are modelled with `Option`/`Except` or explicit outcome
types; `asyncio` scheduling is irrelevant to the verified properties (the
receive loop and the supervisor are single sequential loops), so they are
modelled as functions over finite scripts of inbound messages / connection
attempts.
-/

set_option autoImplicit false

namespace Knocki

/-! ### Data model (`models.py`) -/

/-- `EventType(StrEnum)`: the four recognized event kinds. -/
inductive EventType
  | created
  | updated
  | deleted
  | triggered
  deriving DecidableEq, Repr

/-- `TriggerDetails`: `trigger_id: int` (JSON alias `id`), `name: str`. -/
structure TriggerDetails where
  trigger_id : Int
  name : String
  deriving DecidableEq, Repr

/-- `Trigger`: `device_id: str` (JSON alias `device`), `details: TriggerDetails`. -/
structure Trigger where
  device_id : String
  details : TriggerDetails
  deriving DecidableEq, Repr

/-- `Event`: an `EventType` together with a `Trigger` payload. -/
structure Event where
  event : EventType
  payload : Trigger
  deriving DecidableEq, Repr

/-! ### JSON values and the event codec

`Event.from_json` is orjson parsing followed by the mashumaro-generated
unpacker for the dataclass fields.  Frames are modelled as already-parsed
JSON values; a text frame whose body is not valid JSON is modelled by the
`JsonValue.arr []`-like malformed shapes rejected below (any non-object
fails, as does any object missing a required field). -/

inductive JsonValue
  | null
  | bool (b : Bool)
  | num (n : Int)
  | str (s : String)
  | arr (elems : List JsonValue)
  | obj (fields : List (String × JsonValue))

/-- First binding of a key in a JSON object (JSON object keys are unique). -/
def lookupField : List (String × JsonValue) → String → Option JsonValue
  | [], _ => none
  | (k, v) :: rest, key => if k = key then some v else lookupField rest key

/-- Decimal digit accumulator (`none` when a non-digit is met). -/
def decDigitsAux : List Char → Nat → Option Nat
  | [], acc => some acc
  | c :: cs, acc =>
      if c.isDigit then decDigitsAux cs (acc * 10 + (c.toNat - 48)) else none

/-- Python `int(s)` on a string: an optional sign followed by a nonempty
run of decimal digits parses; anything else raises `ValueError`. -/
def pyIntOfString (s : String) : Option Int :=
  match s.toList with
  | [] => none
  | '-' :: cs => if cs = [] then none else (decDigitsAux cs 0).map (fun n => -(n : Int))
  | '+' :: cs => if cs = [] then none else (decDigitsAux cs 0).map (fun n => (n : Int))
  | cs => (decDigitsAux cs 0).map (fun n => (n : Int))

/-- Python `int(value)` as applied by the mashumaro unpacker to the `id`
field (`trigger_id: int`): integers pass through, decimal strings are
parsed, booleans become 0/1, anything else raises. -/
def pyInt : JsonValue → Option Int
  | .num n => some n
  | .str s => pyIntOfString s
  | .bool b => some (if b then 1 else 0)
  | _ => none

/-- Python `str(value)` as applied by the mashumaro unpacker to the scalar
string fields `device` and `name`; only scalar payloads occur in frames. -/
def pyStrScalar : JsonValue → Option String
  | .str s => some s
  | .num n => some (toString n)
  | _ => none

/-- The ways `Event.from_json` can raise (orjson / mashumaro exceptions);
all of them surface to `_process_text_message` as a raised exception. -/
inductive DecodeError
  | invalidJson
  | missingField (fld : String)
  | invalidFieldValue (fld : String)
  deriving DecidableEq, Repr

/-- Unpacking the `event` field: one of the four `EventType` string values. -/
def decodeEventType : JsonValue → Except DecodeError EventType
  | .str "actionCreated" => .ok .created
  | .str "actionUpdated" => .ok .updated
  | .str "actionDeleted" => .ok .deleted
  | .str "actionTriggered" => .ok .triggered
  | _ => .error (.invalidFieldValue "event")

/-- mashumaro unpacker for `TriggerDetails` (aliases `id`, `name`). -/
def decodeTriggerDetails : JsonValue → Except DecodeError TriggerDetails
  | .obj fields =>
      match lookupField fields "id" with
      | none => .error (.missingField "id")
      | some idv =>
          match pyInt idv with
          | none => .error (.invalidFieldValue "id")
          | some i =>
              match lookupField fields "name" with
              | none => .error (.missingField "name")
              | some nv =>
                  match pyStrScalar nv with
                  | none => .error (.invalidFieldValue "name")
                  | some nm => .ok ⟨i, nm⟩
  | _ => .error (.invalidFieldValue "details")

/-- mashumaro unpacker for `Trigger` (alias `device`, nested `details`). -/
def decodeTrigger : JsonValue → Except DecodeError Trigger
  | .obj fields =>
      match lookupField fields "device" with
      | none => .error (.missingField "device")
      | some dv =>
          match pyStrScalar dv with
          | none => .error (.invalidFieldValue "device")
          | some d =>
              match lookupField fields "details" with
              | none => .error (.missingField "details")
              | some det =>
                  match decodeTriggerDetails det with
                  | .error e => .error e
                  | .ok td => .ok ⟨d, td⟩
  | _ => .error (.invalidFieldValue "payload")

/-- `Event.from_json`: unpack `event` and `payload`. -/
def decodeEvent : JsonValue → Except DecodeError Event
  | .obj fields =>
      match lookupField fields "event" with
      | none => .error (.missingField "event")
      | some ev =>
          match decodeEventType ev with
          | .error e => .error e
          | .ok et =>
              match lookupField fields "payload" with
              | none => .error (.missingField "payload")
              | some p =>
                  match decodeTrigger p with
                  | .error e => .error e
                  | .ok tr => .ok ⟨et, tr⟩
  | _ => .error .invalidJson

/-! ### Listener registry (`_listeners`, `register_listener`)

A listener callback is identified by an id; `raises` says whether invoking
it raises an exception (Python callbacks are compared by object identity /
equality — two `Listener` values are the same callback iff they are equal).
The registry is the insertion-ordered dict `EventType -> list of callbacks`. -/

structure Listener where
  id : Nat
  raises : Bool
  deriving DecidableEq, Repr

abbrev Registry := List (EventType × List Listener)

/-- `self._listeners.get(event_type, [])`. -/
def regGet : Registry → EventType → List Listener
  | [], _ => []
  | (k, ls) :: rest, key => if k = key then ls else regGet rest key

/-- `register_listener`: `if event_type not in self._listeners:
self._listeners[event_type] = [listener] else: ...append(listener)`. -/
def registerListener : Registry → EventType → Listener → Registry
  | [], key, l => [(key, [l])]
  | (k, ls) :: rest, key, l =>
      if k = key then (k, ls ++ [l]) :: rest
      else (k, ls) :: registerListener rest key l

/-- Python `list.remove`: drop the first occurrence; `none` models the
`ValueError` raised when the element is absent. -/
def pyListRemove : List Listener → Listener → Option (List Listener)
  | [], _ => none
  | x :: xs, l =>
      if x = l then some xs
      else (pyListRemove xs l).map (fun xs' => x :: xs')

/-- The closure returned by `register_listener`:
`lambda: self._listeners[event_type].remove(listener)`.  `none` models a
raised exception (`KeyError` on a missing key, `ValueError` from `remove`). -/
def unregisterListener : Registry → EventType → Listener → Option Registry
  | [], _, _ => none
  | (k, ls) :: rest, key, l =>
      if k = key then (pyListRemove ls l).map (fun ls' => (k, ls') :: rest)
      else (unregisterListener rest key l).map (fun r' => (k, ls) :: r')

/-! ### Dispatch and the receive loop -/

/-- The `for listener in self._listeners.get(event.event, []):` loop of
`_process_text_message`: invoke each callback in order with the event.
Returns the invocation log (callback id, event) and whether a callback
raised; a raising callback is invoked, then aborts the loop (its exception
propagates, so later callbacks are not reached). -/
def dispatchListeners (e : Event) : List Listener → List (Nat × Event) × Bool
  | [] => ([], false)
  | l :: ls =>
      if l.raises then ([(l.id, e)], true)
      else
        ((l.id, e) :: (dispatchListeners e ls).1, (dispatchListeners e ls).2)

/-- Outcome of `_process_text_message` on one text frame. -/
inductive ProcResult
  | decodeFailed (err : DecodeError)
  | listenerRaised (invoked : List (Nat × Event))
  | ok (invoked : List (Nat × Event))
  deriving DecidableEq, Repr

/-- `_process_text_message`: `Event.from_json(data)` then the dispatch
loop; a decode exception or callback exception propagates to the caller. -/
def processTextMessage (reg : Registry) (d : JsonValue) : ProcResult :=
  match decodeEvent d with
  | .error err => .decodeFailed err
  | .ok e =>
      match dispatchListeners e (regGet reg e.event) with
      | (ids, true) => .listenerRaised ids
      | (ids, false) => .ok ids

/-- Inbound WebSocket message kinds (`aiohttp.WSMsgType` as matched in
`_receive_messages`); a text message carries its parsed body. -/
inductive WSMsg
  | close
  | closed
  | closing
  | error
  | text (d : JsonValue)
  | ping
  | pong
  | other

/-- How one run of `_receive_messages` ends: normal return, or a raised
`KnockiConnectionError` (the `except Exception` arm re-raises every
exception from the loop body wrapped as `KnockiConnectionError`). -/
inductive LoopResult
  | clean
  | connError
  deriving DecidableEq, Repr

/-- `_receive_messages` over a finite script of inbound messages (an
exhausted script stands for the transport closing, which ends the loop
normally just like a close frame).  Returns the loop outcome and the full
invocation log of listener callbacks. -/
def receiveMessages (reg : Registry) : List WSMsg → LoopResult × List (Nat × Event)
  | [] => (.clean, [])
  | m :: rest =>
      match m with
      | .close | .closed | .closing => (.clean, [])
      | .error | .ping | .pong | .other => receiveMessages reg rest
      | .text d =>
          match processTextMessage reg d with
          | .ok ids =>
              ((receiveMessages reg rest).1, ids ++ (receiveMessages reg rest).2)
          | .decodeFailed _ => (.connError, [])
          | .listenerRaised ids => (.connError, ids)

/-! ### Reconnection supervisor (`start_websocket`)

Each loop iteration either fails inside `ws_connect` — which raises an
aiohttp exception, *not* `KnockiConnectionError` — or connects and runs
`_receive_messages` over that session's inbound messages.  The loop body
catches exactly `KnockiConnectionError`: on it, sleep `2**retry_count`
and increment the counter; on a normal return of the receive loop, reset
the counter; any other exception escapes the loop to the caller. -/

inductive SupStep
  | connectFail
  | session (msgs : List WSMsg)

/-- `start_websocket`'s `while True:` loop over a finite script of
connection attempts.  Returns the list of backoff sleeps performed (in
order) and whether an exception escaped the loop to the caller; an
exhausted script means the loop is still running (it only ends by
cancellation or escape). -/
def startWebsocket (reg : Registry) : Nat → List SupStep → List Nat × Bool
  | _, [] => ([], false)
  | _, .connectFail :: _ => ([], true)
  | n, .session msgs :: rest =>
      match (receiveMessages reg msgs).1 with
      | .clean => startWebsocket reg 0 rest
      | .connError =>
          (2 ^ n :: (startWebsocket reg (n + 1) rest).1,
           (startWebsocket reg (n + 1) rest).2)

/-! ### Client state: `close`, `connected`, `_request`/`login` effects -/

structure HttpSession where
  closed : Bool
  deriving DecidableEq, Repr

structure WebSocketClient where
  closed : Bool
  deriving DecidableEq, Repr

/-- The mutable fields of `KnockiClient` relevant to the claims. -/
structure ClientState where
  token : Option String
  session : Option HttpSession
  close_session : Bool
  client : Option WebSocketClient
  deriving DecidableEq, Repr

/-- `connected`: `self._client is not None and not self._client.closed`. -/
def connected (s : ClientState) : Bool :=
  match s.client with
  | some c => !c.closed
  | none => false

/-- `close`: `if self.session and self._close_session: await
self.session.close()` — it touches nothing else (in particular not
`self._client`). -/
def close (s : ClientState) : ClientState :=
  match s.session with
  | some sess =>
      if s.close_session then { s with session := some { sess with closed := true } }
      else s
  | none => s

/-- The state effect shared by every `_request` call: lazily create the
HTTP session and mark it library-owned. -/
def requestSessionInit (s : ClientState) : ClientState :=
  match s.session with
  | none => { s with session := some { closed := false }, close_session := true }
  | some _ => s

/-- `login` touches client state only through its `_request` call; it never
assigns `self.token` (the token is only returned in the `TokenResponse`). -/
def loginStateEffect (s : ClientState) : ClientState :=
  requestSessionInit s

/-- `_request` sends `Authorization: Bearer ...` iff `if self.token:` is
truthy (a `None` or empty-string token is falsy in Python). -/
def authHeaderPresent (s : ClientState) : Bool :=
  match s.token with
  | some t => t ≠ ""
  | none => false

/-! ### The HTTP request outcome (`_request`) -/

structure HttpResponse where
  status : Nat
  contentType : String
  body : String
  deriving DecidableEq, Repr

/-- One `_request` attempt either times out or yields a response. -/
inductive HttpOutcome
  | timeout
  | response (r : HttpResponse)
  deriving DecidableEq, Repr

inductive RequestResult
  | ok (body : String)
  | connectionError
  deriving DecidableEq, Repr

/-- Does the first list start with the second one? -/
def charListStartsWith : List Char → List Char → Bool
  | _, [] => true
  | [], _ :: _ => false
  | a :: as, b :: bs => a = b && charListStartsWith as bs

/-- Does the second list occur contiguously in the first? -/
def charListContains : List Char → List Char → Bool
  | [], needle => needle.isEmpty
  | a :: as, needle => charListStartsWith (a :: as) needle || charListContains as needle

/-- Python `needle in haystack` on strings. -/
def strContains (haystack needle : String) : Bool :=
  charListContains haystack.toList needle.toList

/-- `_request`: raise `KnockiConnectionError` on `asyncio.TimeoutError`,
or when `response.status != 200 or "application/json" not in content_type`;
otherwise return the body text. -/
def request (o : HttpOutcome) : RequestResult :=
  match o with
  | .timeout => .connectionError
  | .response r =>
      if r.status ≠ 200 ∨ strContains r.contentType "application/json" = false then
        .connectionError
      else .ok r.body

/-! ### Helper lemmas on the registry and dispatch -/

theorem pyListRemove_of_not_mem (xs : List Listener) (l : Listener) (h : l ∉ xs) :
    pyListRemove xs l = none := by
  induction xs with
  | nil => rfl
  | cons x xs ih =>
      simp only [List.mem_cons, not_or] at h
      have hne : ¬(x = l) := fun hx => h.1 hx.symm
      simp [pyListRemove, hne, ih h.2]

theorem pyListRemove_append_self (xs : List Listener) (l : Listener) (h : l ∉ xs) :
    pyListRemove (xs ++ [l]) l = some xs := by
  induction xs with
  | nil => simp [pyListRemove]
  | cons x xs ih =>
      simp only [List.mem_cons, not_or] at h
      have hne : ¬(x = l) := fun hx => h.1 hx.symm
      simp [pyListRemove, hne, ih h.2]

theorem regGet_register_self (r : Registry) (k : EventType) (l : Listener) :
    regGet (registerListener r k l) k = regGet r k ++ [l] := by
  induction r with
  | nil => simp [registerListener, regGet]
  | cons hd rest ih =>
      obtain ⟨k₀, ls⟩ := hd
      by_cases hk : k₀ = k
      · subst hk
        simp [registerListener, regGet]
      · simp [registerListener, regGet, hk, ih]

theorem unregister_register_of_not_mem (r : Registry) (k : EventType) (l : Listener)
    (h : l ∉ regGet r k) :
    ∃ r', unregisterListener (registerListener r k l) k l = some r' ∧
      regGet r' k = regGet r k ∧ unregisterListener r' k l = none := by
  induction r with
  | nil =>
      refine ⟨[(k, [])], ?_, ?_, ?_⟩
      · simp [registerListener, unregisterListener, pyListRemove]
      · simp [regGet]
      · simp [unregisterListener, pyListRemove]
  | cons hd rest ih =>
      obtain ⟨k₀, ls⟩ := hd
      by_cases hk : k₀ = k
      · subst hk
        simp only [regGet, if_pos rfl] at h
        refine ⟨(k₀, ls) :: rest, ?_, ?_, ?_⟩
        · simp [registerListener, unregisterListener, pyListRemove_append_self ls l h]
        · rfl
        · simp [unregisterListener, pyListRemove_of_not_mem ls l h]
      · simp only [regGet, if_neg hk] at h
        obtain ⟨r₂, hu, hg, hu₂⟩ := ih h
        refine ⟨(k₀, ls) :: r₂, ?_, ?_, ?_⟩
        · simp [registerListener, unregisterListener, hk, hu]
        · simp [regGet, hk, hg]
        · simp [unregisterListener, hk, hu₂]

theorem dispatch_no_raise (e : Event) (ls : List Listener)
    (h : ∀ x ∈ ls, x.raises = false) :
    dispatchListeners e ls = (ls.map (fun x => (x.id, e)), false) := by
  induction ls with
  | nil => rfl
  | cons x xs ih =>
      have hx : x.raises = false := h x (List.mem_cons_self x xs)
      have hxs := ih (fun y hy => h y (List.mem_cons_of_mem x hy))
      simp [dispatchListeners, hx, hxs]

theorem dispatch_raise_at (e : Event) (pre post : List Listener) (l : Listener)
    (hpre : ∀ x ∈ pre, x.raises = false) (hl : l.raises = true) :
    dispatchListeners e (pre ++ l :: post) =
      (pre.map (fun x => (x.id, e)) ++ [(l.id, e)], true) := by
  induction pre with
  | nil => simp [dispatchListeners, hl]
  | cons x xs ih =>
      have hx : x.raises = false := hpre x (List.mem_cons_self x xs)
      have hxs := ih (fun y hy => hpre y (List.mem_cons_of_mem x hy))
      simp [dispatchListeners, hx, hxs]

theorem dispatch_invoked_mem (e : Event) (ls : List Listener) (p : Nat × Event)
    (hp : p ∈ (dispatchListeners e ls).1) : ∃ x ∈ ls, p = (x.id, e) := by
  induction ls with
  | nil => simp [dispatchListeners] at hp
  | cons x xs ih =>
      by_cases hx : x.raises
      · simp only [dispatchListeners, if_pos hx, List.mem_singleton] at hp
        exact ⟨x, List.mem_cons_self x xs, hp⟩
      · simp only [dispatchListeners, if_neg hx, List.mem_cons] at hp
        rcases hp with hp | hp
        · exact ⟨x, List.mem_cons_self x xs, hp⟩
        · obtain ⟨y, hy, hpy⟩ := ih hp
          exact ⟨y, List.mem_cons_of_mem x hy, hpy⟩

theorem startWebsocket_session_connError (reg : Registry) (n : Nat) (msgs : List WSMsg)
    (script : List SupStep) (h : (receiveMessages reg msgs).1 = .connError) :
    startWebsocket reg n (.session msgs :: script) =
      (2 ^ n :: (startWebsocket reg (n + 1) script).1,
       (startWebsocket reg (n + 1) script).2) := by
  conv_lhs => rw [startWebsocket]
  rw [h]

theorem startWebsocket_session_clean (reg : Registry) (n : Nat) (msgs : List WSMsg)
    (script : List SupStep) (h : (receiveMessages reg msgs).1 = .clean) :
    startWebsocket reg n (.session msgs :: script) = startWebsocket reg 0 script := by
  conv_lhs => rw [startWebsocket]
  rw [h]

theorem startWebsocket_replicate_connError (reg : Registry) (msgs : List WSMsg)
    (h : (receiveMessages reg msgs).1 = .connError) :
    ∀ (N n : Nat) (script : List SupStep),
      startWebsocket reg n (List.replicate N (.session msgs) ++ script) =
        ((List.range N).map (fun i => 2 ^ (n + i)) ++ (startWebsocket reg (n + N) script).1,
         (startWebsocket reg (n + N) script).2) := by
  intro N
  induction N with
  | zero => intro n script; simp
  | succ N ih =>
      intro n script
      rw [List.replicate_succ, List.cons_append,
        startWebsocket_session_connError reg n msgs _ h, ih (n + 1) script]
      have hn : n + (N + 1) = n + 1 + N := by omega
      have hlist : (List.range (N + 1)).map (fun i => 2 ^ (n + i)) =
          2 ^ n :: (List.range N).map (fun i => 2 ^ (n + 1 + i)) := by
        rw [List.range_succ_eq_map, List.map_cons, List.map_map]
        have h0 : 2 ^ (n + 0) = 2 ^ n := by rw [Nat.add_zero]
        rw [h0]
        refine congrArg (List.cons (2 ^ n)) (List.map_congr_left (fun i _ => ?_))
        simp only [Function.comp_apply]
        congr 1
        omega
      rw [hn, hlist, List.cons_append]

/-! ### Shared concrete sample values -/

/-- A well-formed `actionTriggered` frame body. -/
def sampleFrame : JsonValue :=
  .obj [("event", .str "actionTriggered"),
        ("payload", .obj [("device", .str "dev-1"),
                          ("details", .obj [("id", .num 7), ("name", .str "porch light")])])]

/-- The event `sampleFrame` decodes to. -/
def sampleEvent : Event := ⟨.triggered, ⟨"dev-1", ⟨7, "porch light"⟩⟩⟩

/-- A frame body with an unrecognized `event` string. -/
def malformedFrame : JsonValue := .obj [("event", .str "bogus")]

/-- A registry with one non-raising listener (id 5) for `triggered`. -/
def sampleRegistry : Registry := [(.triggered, [⟨5, false⟩])]

/-! ### Claim theorems -/

/-- C1 counterexample: a malformed text frame does NOT leave the receive
loop running — the decode exception aborts `_receive_messages` with a
`KnockiConnectionError` and the valid frame that follows is never
processed (its registered listener is never invoked), whereas the same
valid frame alone is processed. -/
theorem decode_failure_tears_down_connection_cex :
    receiveMessages sampleRegistry [.text malformedFrame, .text sampleFrame] =
      (.connError, []) ∧
    receiveMessages sampleRegistry [.text sampleFrame] =
      (.clean, [(5, sampleEvent)]) := ⟨rfl, rfl⟩

/-- C1 (amended): a text frame whose payload fails to decode raises out of
`_process_text_message`; `_receive_messages` logs it and re-raises it as
`KnockiConnectionError`, ending the session without processing any
subsequent frame; `start_websocket` catches that error and retries after a
`2 ^ retry_count` backoff. -/
theorem decode_failure_raises_connection_error
    (reg : Registry) (d : JsonValue) (err : DecodeError) (rest : List WSMsg)
    (n : Nat) (script : List SupStep)
    (h : decodeEvent d = .error err) :
    receiveMessages reg (.text d :: rest) = (.connError, []) ∧
    startWebsocket reg n (.session (.text d :: rest) :: script) =
      (2 ^ n :: (startWebsocket reg (n + 1) script).1,
       (startWebsocket reg (n + 1) script).2) := by
  have h1 : receiveMessages reg (.text d :: rest) = (.connError, []) := by
    simp [receiveMessages, processTextMessage, h]
  exact ⟨h1, startWebsocket_session_connError reg n _ script (by rw [h1])⟩

/-- C1 witness: the amended theorem at the sample registry, the malformed
frame followed by a valid frame, and an empty remaining supervisor script. -/
theorem decode_failure_raises_connection_error_witness :
    receiveMessages sampleRegistry [.text malformedFrame, .text sampleFrame] =
      (.connError, []) ∧
    startWebsocket sampleRegistry 3
      [.session [.text malformedFrame, .text sampleFrame]] = ([8], false) :=
  decode_failure_raises_connection_error sampleRegistry malformedFrame
    (.invalidFieldValue "event") [.text sampleFrame] 3 [] rfl

/-- C2 counterexample: a failing `ws_connect` attempt raises an aiohttp
exception, which is not a `KnockiConnectionError` and therefore escapes
the `while True` loop of `start_websocket` to the caller with no backoff
sleep, and any remaining attempts never happen. -/
theorem connect_error_escapes_supervisor_cex :
    startWebsocket [] 0 [.connectFail] = ([], true) ∧
    startWebsocket [] 0 [.connectFail, .session []] = ([], true) := ⟨rfl, rfl⟩

/-- C2 (amended): the supervisor loop catches exactly
`KnockiConnectionError` — the error the receive loop raises — and converts
it into a `2 ^ retry_count` backoff-and-retry, while an error raised by the
connection attempt itself (`ws_connect`) is not caught and propagates to
the caller, terminating the loop. -/
theorem supervisor_catches_only_knocki_connection_error
    (reg : Registry) (n : Nat) (msgs : List WSMsg) (script : List SupStep)
    (h : (receiveMessages reg msgs).1 = .connError) :
    startWebsocket reg n (.session msgs :: script) =
      (2 ^ n :: (startWebsocket reg (n + 1) script).1,
       (startWebsocket reg (n + 1) script).2) ∧
    startWebsocket reg n (.connectFail :: script) = ([], true) :=
  ⟨startWebsocket_session_connError reg n msgs script h, rfl⟩

/-- C2 witness: the amended theorem at a session whose first frame fails
to decode, with an empty remaining script. -/
theorem supervisor_catches_only_knocki_connection_error_witness :
    startWebsocket [] 0 [.session [.text (.obj [])]] = ([1], false) ∧
    startWebsocket [] 0 [.connectFail] = ([], true) :=
  supervisor_catches_only_knocki_connection_error [] 0 [.text (.obj [])] [] rfl

/-- C3 counterexample: with a raising listener (id 0) registered before a
non-raising one (id 1) for `triggered`, dispatching a valid `triggered`
event invokes only listener 0; the exception propagates, listener 1 is
never invoked, and the receive loop ends with `KnockiConnectionError`
(tearing down the connection) instead of catching the callback error. -/
theorem listener_error_aborts_dispatch_cex :
    processTextMessage [(.triggered, [⟨0, true⟩, ⟨1, false⟩])] sampleFrame =
      .listenerRaised [(0, sampleEvent)] ∧
    receiveMessages [(.triggered, [⟨0, true⟩, ⟨1, false⟩])] [.text sampleFrame] =
      (.connError, [(0, sampleEvent)]) := ⟨rfl, rfl⟩

/-- C3 (amended): a listener that raises during dispatch aborts
`_process_text_message` after the listeners registered before it have run:
the raising listener is the last one invoked, listeners registered after
it are not invoked, and the receive loop ends with
`KnockiConnectionError` (the supervisor then reconnects). -/
theorem listener_error_propagates
    (reg : Registry) (d : JsonValue) (e : Event) (pre post : List Listener) (l : Listener)
    (hd : decodeEvent d = .ok e)
    (hls : regGet reg e.event = pre ++ l :: post)
    (hpre : ∀ x ∈ pre, x.raises = false) (hl : l.raises = true) :
    processTextMessage reg d =
      .listenerRaised (pre.map (fun x => (x.id, e)) ++ [(l.id, e)]) ∧
    receiveMessages reg [.text d] =
      (.connError, pre.map (fun x => (x.id, e)) ++ [(l.id, e)]) := by
  have hp : processTextMessage reg d =
      .listenerRaised (pre.map (fun x => (x.id, e)) ++ [(l.id, e)]) := by
    simp [processTextMessage, hd, hls, dispatch_raise_at e pre post l hpre hl]
  exact ⟨hp, by simp [receiveMessages, hp]⟩

/-- C3 witness: the amended theorem at a registry whose `triggered` list is
a non-raising listener (id 3), a raising one (id 0), then another
non-raising one (id 1). -/
theorem listener_error_propagates_witness :
    processTextMessage [(.triggered, [⟨3, false⟩, ⟨0, true⟩, ⟨1, false⟩])] sampleFrame =
      .listenerRaised [(3, sampleEvent), (0, sampleEvent)] ∧
    receiveMessages [(.triggered, [⟨3, false⟩, ⟨0, true⟩, ⟨1, false⟩])] [.text sampleFrame] =
      (.connError, [(3, sampleEvent), (0, sampleEvent)]) :=
  listener_error_propagates [(.triggered, [⟨3, false⟩, ⟨0, true⟩, ⟨1, false⟩])]
    sampleFrame sampleEvent [⟨3, false⟩] [⟨1, false⟩] ⟨0, true⟩
    rfl rfl (by decide) rfl

/-- C4 counterexample: the closure returned by `register_listener` is not
idempotent — after it removes the listener once, calling it again executes
`list.remove` on a list not containing the listener, which raises
`ValueError` (modelled as `none`). -/
theorem unregister_twice_raises_cex :
    unregisterListener (registerListener [] .triggered ⟨0, false⟩) .triggered ⟨0, false⟩ =
      some [(.triggered, [])] ∧
    unregisterListener [(.triggered, [])] .triggered ⟨0, false⟩ = none := ⟨rfl, rfl⟩

/-- C4 (amended): for a listener not already registered for its kind, the
returned unregister closure removes exactly that listener (restoring the
kind's previous list), but it is not idempotent: invoking it again after
the removal raises `ValueError`. -/
theorem unregister_removes_once
    (r : Registry) (k : EventType) (l : Listener) (h : l ∉ regGet r k) :
    ∃ r', unregisterListener (registerListener r k l) k l = some r' ∧
      regGet r' k = regGet r k ∧ unregisterListener r' k l = none :=
  unregister_register_of_not_mem r k l h

/-- C4 witness: the amended theorem at a registry holding one `created`
listener, registering and unregistering a `triggered` listener. -/
theorem unregister_removes_once_witness :
    ∃ r', unregisterListener
        (registerListener [(.created, [⟨1, false⟩])] .triggered ⟨2, false⟩)
        .triggered ⟨2, false⟩ = some r' ∧
      regGet r' .triggered = regGet [(.created, [⟨1, false⟩])] .triggered ∧
      unregisterListener r' .triggered ⟨2, false⟩ = none :=
  unregister_removes_once [(.created, [⟨1, false⟩])] .triggered ⟨2, false⟩ (by decide)

/-- C5 counterexample: the middle session reaches `connected` and
processes one frame (listener 5 is invoked) before failing, yet the
counter is not reset — the third failure sleeps `2 ^ 2 = 4`, not `2 ^ 0`
as the claim predicts after a "successful full connection". -/
theorem backoff_reset_needs_clean_exit_cex :
    (receiveMessages sampleRegistry [.text sampleFrame, .text malformedFrame]).2 =
      [(5, sampleEvent)] ∧
    startWebsocket sampleRegistry 0
      [.session [.text malformedFrame],
       .session [.text sampleFrame, .text malformedFrame],
       .session [.text malformedFrame]] = ([1, 2, 4], false) := ⟨rfl, rfl⟩

/-- C5 (amended): N consecutive failing sessions make the supervisor sleep
`2 ^ 0, 2 ^ 1, ..., 2 ^ (N - 1)` between attempts, and the retry counter
is reset exactly when a session's receive loop completes cleanly (not
merely by reaching `connected` and processing frames): after a clean
session the next failure sleeps `2 ^ 0` again. -/
theorem backoff_powers_and_reset
    (reg : Registry) (failMsgs cleanMsgs : List WSMsg) (script : List SupStep)
    (N n : Nat)
    (hfail : (receiveMessages reg failMsgs).1 = .connError)
    (hclean : (receiveMessages reg cleanMsgs).1 = .clean) :
    startWebsocket reg 0 (List.replicate N (.session failMsgs) ++ script) =
      ((List.range N).map (fun i => 2 ^ i) ++ (startWebsocket reg N script).1,
       (startWebsocket reg N script).2) ∧
    startWebsocket reg n (.session cleanMsgs :: .session failMsgs :: script) =
      (2 ^ 0 :: (startWebsocket reg 1 script).1,
       (startWebsocket reg 1 script).2) := by
  constructor
  · have h := startWebsocket_replicate_connError reg failMsgs hfail N 0 script
    simpa using h
  · rw [startWebsocket_session_clean reg n cleanMsgs _ hclean,
      startWebsocket_session_connError reg 0 failMsgs script hfail]

/-- C5 witness: the amended theorem with three consecutive failing
sessions (sleeps 1, 2, 4) and a clean session followed by a failing one
after the counter already reached 5 (sleep 1 again). -/
theorem backoff_powers_and_reset_witness :
    startWebsocket sampleRegistry 0
      (List.replicate 3 (.session [.text malformedFrame]) ++ []) = ([1, 2, 4], false) ∧
    startWebsocket sampleRegistry 5
      [.session [.close], .session [.text malformedFrame]] = ([1], false) :=
  backoff_powers_and_reset sampleRegistry [.text malformedFrame] [.close] [] 3 5 rfl rfl

/-- C6 counterexample: with a caller-provided session (`_close_session`
false) and a live WebSocket client, `close()` changes nothing — in
particular the client is still `connected` afterwards, so `close()` does
not release the transport. -/
theorem close_leaves_client_connected_cex :
    close ⟨none, some ⟨false⟩, false, some ⟨false⟩⟩ =
      (⟨none, some ⟨false⟩, false, some ⟨false⟩⟩ : ClientState) ∧
    connected (close ⟨none, some ⟨false⟩, false, some ⟨false⟩⟩) = true :=
  ⟨rfl, rfl⟩

/-- C6 (amended): `close()` only closes the HTTP session, and only when
the library created it (`_close_session`); it never touches the WebSocket
client reference, so the `connected` property — and with it whether the
transport is held — is unchanged by every call to `close()`. -/
theorem close_preserves_client (s : ClientState) :
    (close s).client = s.client ∧ connected (close s) = connected s ∧
    (close s).token = s.token := by
  obtain ⟨tok, sess, cs, cl⟩ := s
  cases sess with
  | none => exact ⟨rfl, rfl, rfl⟩
  | some hs => cases cs <;> simp [close, connected]

/-- C7 counterexample: a recognized frame whose `details.id` is the string
`"7"` decodes to `trigger_id = 7` — the `int`-typed field coerces the
string instead of preserving it — and a non-numeric string id makes
decoding fail outright, so string ids are not mapped with their values
preserved exactly. -/
theorem string_id_coerced_to_int_cex :
    decodeEvent (.obj [("event", .str "actionTriggered"),
        ("payload", .obj [("device", .str "dev-1"),
            ("details", .obj [("id", .str "7"), ("name", .str "porch light")])])]) =
      .ok ⟨.triggered, ⟨"dev-1", ⟨7, "porch light"⟩⟩⟩ ∧
    decodeTriggerDetails (.obj [("id", .str "unit-7"), ("name", .str "porch light")]) =
      .error (.invalidFieldValue "id") := ⟨rfl, rfl⟩

/-- C7 (amended): for every valid frame payload with a recognized `event`
kind, decoding yields the matching `Event`: `device` maps to `device_id`
and `details.name` to `name` with values preserved exactly, while
`details.id` maps to `trigger_id` through Python `int()` — integer ids are
preserved, string ids are parsed as decimal integers. -/
theorem decode_roundtrip
    (ek : String) (et : EventType) (dev nm : String) (idv : JsonValue) (i : Int)
    (hek : decodeEventType (.str ek) = .ok et)
    (hid : pyInt idv = some i) :
    decodeEvent (.obj [("event", .str ek),
        ("payload", .obj [("device", .str dev),
            ("details", .obj [("id", idv), ("name", .str nm)])])]) =
      .ok ⟨et, ⟨dev, ⟨i, nm⟩⟩⟩ := by
  simp [decodeEvent, decodeTrigger, decodeTriggerDetails, lookupField,
    pyStrScalar, hek, hid]

/-- C7 witness: the amended theorem at an `actionCreated` frame carrying
an integer id 42 (as the decimal string "42"). -/
theorem decode_roundtrip_witness :
    decodeEvent (.obj [("event", .str "actionCreated"),
        ("payload", .obj [("device", .str "knc1-x"),
            ("details", .obj [("id", .str "42"), ("name", .str "desk")])])]) =
      .ok ⟨.created, ⟨"knc1-x", ⟨42, "desk"⟩⟩⟩ :=
  decode_roundtrip "actionCreated" .created "knc1-x" "desk" (.str "42") 42 rfl rfl

/-- C8 counterexample: listener 6 is currently registered for `triggered`
(after the raising listener 4), yet dispatching a valid `triggered` event
invokes only listener 4 — the registered listener 6 is not invoked, so it
is not the case that exactly the listeners currently registered for the
event's kind are each invoked once. -/
theorem dispatch_skips_after_raise_cex :
    (⟨6, false⟩ : Listener) ∈ regGet [(.triggered, [⟨4, true⟩, ⟨6, false⟩])] .triggered ∧
    processTextMessage [(.triggered, [⟨4, true⟩, ⟨6, false⟩])] sampleFrame =
      .listenerRaised [(4, sampleEvent)] := ⟨by decide, rfl⟩

/-- C8 (amended): when no listener registered for the event's kind raises,
dispatching a decoded event invokes exactly the listeners currently
registered for that kind, each once with that event, in registration
order; and a listener unregistered via its handle before the dispatch is
never invoked. -/
theorem dispatch_exact_order
    (reg : Registry) (d : JsonValue) (e : Event)
    (reg₀ : Registry) (l : Listener) (reg₁ : Registry)
    (hd : decodeEvent d = .ok e)
    (hnr : ∀ x ∈ regGet reg e.event, x.raises = false)
    (hid : l.id ∉ (regGet reg₀ e.event).map Listener.id)
    (hreg : unregisterListener (registerListener reg₀ e.event l) e.event l = some reg₁) :
    processTextMessage reg d = .ok ((regGet reg e.event).map (fun x => (x.id, e))) ∧
    ∀ p ∈ (dispatchListeners e (regGet reg₁ e.event)).1, p.1 ≠ l.id := by
  constructor
  · simp [processTextMessage, hd, dispatch_no_raise e _ hnr]
  · have hnm : l ∉ regGet reg₀ e.event := fun hm =>
      hid (List.mem_map_of_mem Listener.id hm)
    obtain ⟨r₂, hu, hg, _⟩ := unregister_register_of_not_mem reg₀ e.event l hnm
    have hr : reg₁ = r₂ := Option.some_injective _ (hreg.symm.trans hu)
    intro p hp hpl
    obtain ⟨x, hx, hpx⟩ := dispatch_invoked_mem e _ p hp
    rw [hr, hg] at hx
    apply hid
    have hxl : x.id = l.id := by rw [hpx] at hpl; exact hpl
    rw [← hxl]
    exact List.mem_map_of_mem Listener.id hx

/-- C8 witness: the theorem at a registry with listeners 1 and 2 for
`triggered`, and a listener 9 registered then unregistered on an
initially empty registry. -/
theorem dispatch_exact_order_witness :
    processTextMessage [(.triggered, [⟨1, false⟩, ⟨2, false⟩])] sampleFrame =
      .ok [(1, sampleEvent), (2, sampleEvent)] ∧
    ∀ p ∈ (dispatchListeners sampleEvent (regGet [(.triggered, [])] .triggered)).1,
      p.1 ≠ 9 :=
  dispatch_exact_order [(.triggered, [⟨1, false⟩, ⟨2, false⟩])] sampleFrame sampleEvent
    [] ⟨9, false⟩ [(.triggered, [])] rfl (by decide) (by decide) rfl

/-- C9 counterexample: a response answered within the timeout with status
201 (a 2xx status) and a JSON content type still raises
`KnockiConnectionError`, and so does a 200 response whose content type is
not JSON — the request does not fail "exactly when the attempt times out
or the status is non-2xx". -/
theorem status_201_fails_cex :
    (200 ≤ 201 ∧ 201 < 300) ∧
    request (.response { status := 201, contentType := "application/json", body := "{}" }) =
      .connectionError ∧
    request (.response { status := 200, contentType := "text/plain", body := "{}" }) =
      .connectionError := ⟨by decide, rfl, rfl⟩

/-- C9 (amended): a request fails with `KnockiConnectionError` exactly
when the single attempt times out, or the response status is not exactly
200, or the `Content-Type` header does not contain `application/json`. -/
theorem request_failure_condition (o : HttpOutcome) :
    request o = .connectionError ↔
      o = .timeout ∨ ∃ r, o = .response r ∧
        (r.status ≠ 200 ∨ strContains r.contentType "application/json" = false) := by
  cases o with
  | timeout => simp [request]
  | response r =>
      by_cases h1 : r.status = 200 <;>
        by_cases h2 : strContains r.contentType "application/json" = false <;>
          simp [request, h1, h2]

/-- C10: `login` never stores the obtained token on the client — the
`token` field, the WebSocket client and the Authorization-header
condition are unchanged by `login`'s state effect; the only state `login`
may touch is lazily creating the HTTP session (marking it library-owned)
when none exists. -/
theorem login_preserves_token (s : ClientState) :
    (loginStateEffect s).token = s.token ∧
    (loginStateEffect s).client = s.client ∧
    authHeaderPresent (loginStateEffect s) = authHeaderPresent s ∧
    (∀ hs, s.session = some hs → loginStateEffect s = s) ∧
    (s.session = none → (loginStateEffect s).session = some { closed := false } ∧
      (loginStateEffect s).close_session = true) := by
  obtain ⟨tok, sess, cs, cl⟩ := s
  cases sess <;> simp [loginStateEffect, requestSessionInit, authHeaderPresent]

end Knocki
